import Mathlib

/-!
# Credential subsystem of `webserver` — a shallow embedding

This file embeds the credential-management core of the repository
(`src/webserver/src/services/user_service.rs`) in Lean 4 and proves, or
refutes, the specification's claims about it.

The service functions `register_user` and `login` are translated directly
from the Rust source.  Their collaborators are not part of the available
source and are modelled:

* the credential store (diesel schema + Postgres unique constraint on
  `username`) is modelled from the spec as a list of rows with a
  store-enforced uniqueness check on insert;
* the password hasher (the external `bcrypt` crate) is modelled from the
  spec's Hasher contract: a salted one-way transform whose output embeds
  the salt, with structural-malformedness errors on `verify` and a plain
  `false` (never an error) on mismatch.  The digest is idealised as
  collision-free — the standard functional model of a cryptographic hash —
  by letting the recomputed digest be the key itself.

Rust `panic!`/`.expect` is modelled explicitly: a service call either
returns a `Result` together with the resulting store state, or panics with
the `.expect` message, carrying the store state at the moment of unwinding
(a panic before any insert leaves the table untouched).
-/

set_option autoImplicit false

namespace UserService

/-! ## Errors -/

/-- Modelled from the spec: `diesel::result::DatabaseErrorKind`.  The store
surfaces a distinguishable uniqueness-violation kind (`DuplicateKeyError` in
the spec's taxonomy), separate from every other database error kind. -/
inductive DatabaseErrorKind where
  | uniqueViolation
  | otherKind
  deriving DecidableEq, Repr

/-- Modelled from the spec: `diesel::result::Error`, the error type returned
by both service functions.  `NotFound` is the no-row-matched outcome of a
lookup; `DatabaseError` carries the kind reported by the database;
`otherError` stands for the remaining connectivity/transport variants
(the spec's `StoreError`). -/
inductive DieselError where
  | NotFound
  | DatabaseError (kind : DatabaseErrorKind)
  | otherError
  deriving DecidableEq, Repr

/-- Modelled from the spec: `bcrypt::BcryptError`.  `rand` is the
entropy-source failure that can make `hash` fail; `invalidHash` is the
structural-malformedness failure of `verify` (a stored hash that is not a
product of `hash`). -/
inductive BcryptError where
  | rand
  | invalidHash
  deriving DecidableEq, Repr

/-- Rust's `Result`, kept separate from `Except` so that the service
functions read like the source. -/
inductive RustResult (α ε : Type) where
  | ok : α → RustResult α ε
  | err : ε → RustResult α ε
  deriving DecidableEq, Repr

/-! ## Password hasher (external `bcrypt` crate, modelled) -/

/-- Modelled from the spec: the entropy source backing bcrypt's random salt.
`hash` draws a fresh salt on every call; the salt is an input of the model
because the embedding is deterministic.  `unavailable` forces the hasher to
fail, the spec's "catastrophic internal error (e.g., entropy source
unavailable)". -/
inductive Entropy where
  | ok (salt : Nat)
  | unavailable
  deriving DecidableEq, Repr

/-- Modelled from the spec: the bcrypt base64 alphabet used to render the
salt inside the hash string. -/
def saltAlphabet : List Char :=
  "./ABCDEFGHIJKLMNOPQRSTUVWXYZabcdefghijklmnopqrstuvwxyz0123456789".data

/-- Modelled from the spec: the salt, rendered as the fixed-width 22-character
field it occupies in a bcrypt hash string. -/
def encodeSaltChars (salt : Nat) : List Char :=
  (List.range 22).map (fun i => saltAlphabet.getD (salt / 64 ^ i % 64) '.')

/-- Modelled from the spec: the `$2b$` version tag and the cost field
`bcrypt::DEFAULT_COST = 12`, the fixed prefix of every produced hash. -/
def bcryptPrefix : List Char := "$2b$12$".data

/-- Modelled from the spec: the one-way digest recomputed by `verify` from
the salt embedded in the stored hash and the plaintext candidate.  Idealised
as collision-free (distinct keys give distinct digests, and the digest of a
key is determined by it), the standard functional model of a cryptographic
hash: the digest is the key itself. -/
def bcryptDigest (saltChars : List Char) (plain : String) : List Char :=
  plain.data

/-- Modelled from the spec: structural parse of a stored hash string into
its salt and digest fields.  A product of `hash` always parses; a string
without the bcrypt shape (version/cost prefix followed by the 22-character
salt field) is structurally malformed and makes `verify` fail. -/
def parseBcryptHash (stored : String) : Option (List Char × List Char) :=
  let cs := stored.data
  if bcryptPrefix.isPrefixOf cs then
    let rest := cs.drop bcryptPrefix.length
    if 22 ≤ rest.length then some (rest.take 22, rest.drop 22) else none
  else none

/-- Modelled from the spec: the full bcrypt hash string produced for a given
salt and plaintext — version/cost prefix, then the 22-character salt field,
then the digest recomputable from that salt and the plaintext. -/
def bcryptHashString (salt : Nat) (plain : String) : String :=
  ⟨bcryptPrefix ++ (encodeSaltChars salt ++ bcryptDigest (encodeSaltChars salt) plain)⟩

/-- `fn hash_password(plain: &str) -> Result<String, bcrypt::BcryptError>`
(user_service.rs, lines 44–46): `bcrypt::hash(plain, bcrypt::DEFAULT_COST)`.
The bcrypt call is modelled from the spec: on available entropy it embeds
the fresh salt and the digest in the output string; on entropy failure it
returns an error. -/
def hash_password (e : Entropy) (plain : String) : Except BcryptError String :=
  match e with
  | .unavailable => .error .rand
  | .ok salt => .ok (bcryptHashString salt plain)

/-- `fn verify_password(hash: &str, plain: &str) -> Result<bool, bcrypt::BcryptError>`
(user_service.rs, lines 48–50): `bcrypt::verify(plain, hash)`.  The bcrypt
call is modelled from the spec: a structurally malformed stored hash is an
error; otherwise the digest is recomputed with the embedded salt and
compared, and a mismatch is the result `false`, never an error. -/
def verify_password (stored : String) (plain : String) : Except BcryptError Bool :=
  match parseBcryptHash stored with
  | none => .error .invalidHash
  | some (saltChars, digest) => .ok (digest == bcryptDigest saltChars plain)

/-! ## Credential store (diesel schema + Postgres, modelled) -/

/-- `crate::models::user::User` — one persisted row: surrogate `id`,
unique `username`, and the `password_hash` string column. -/
structure User where
  id : Nat
  username : String
  password_hash : String
  deriving DecidableEq, Repr

/-- Modelled from the spec: the `users` table — the rows in insertion order
together with the next surrogate id the store will assign. -/
structure Store where
  rows : List User
  nextId : Nat
  deriving DecidableEq, Repr

/-- The empty `users` table. -/
def emptyStore : Store := ⟨[], 0⟩

/-- Modelled from the spec: the atomic
`diesel::insert_into(users::table).values(..).returning(..).get_result(conn)`
against the unique constraint on `username`.  If a row with the username
already exists the store itself rejects the insert with a
uniqueness-violation database error and the table is unchanged; otherwise
the new row is appended and returned. -/
def Store.insert (s : Store) (username : String) (password_hash : String) :
    RustResult User DieselError × Store :=
  if s.rows.any (fun r => r.username == username) then
    (.err (.DatabaseError .uniqueViolation), s)
  else
    let u : User := ⟨s.nextId, username, password_hash⟩
    (.ok u, ⟨s.rows ++ [u], s.nextId + 1⟩)

/-- Modelled from the spec:
`users::table.filter(users::username.eq(username)).first::<User>(conn)` —
a single-row lookup returning the first matching row, or `Error::NotFound`
when no row matches.  A select never mutates the table. -/
def Store.findByUsername (s : Store) (username : String) :
    RustResult User DieselError :=
  match s.rows.find? (fun r => r.username == username) with
  | some u => .ok u
  | none => .err .NotFound

/-! ## Credential service (user_service.rs) -/

/-- The observable outcome of one service call: either a normal return of
the Rust `Result<User, Error>` together with the store state after the call,
or a panic (`.expect`) with its message and the store state at the moment of
unwinding. -/
inductive ServiceOutcome where
  | ret : RustResult User DieselError → Store → ServiceOutcome
  | panicked : String → Store → ServiceOutcome
  deriving DecidableEq, Repr

/-- The store state a service call leaves behind, on either outcome. -/
def ServiceOutcome.store : ServiceOutcome → Store
  | .ret _ s => s
  | .panicked _ s => s

/-- `pub async fn register_user(conn, username, password) -> Result<User, Error>`
(user_service.rs, lines 6–23), translated line by line:
`hash_password(password).expect("Failed to hash password")` — a hashing
failure panics before any store access; then the `NewUser` insert, whose
result (or error) is returned verbatim after a non-semantic `log::info!`. -/
def register_user (e : Entropy) (conn : Store) (username password : String) :
    ServiceOutcome :=
  match hash_password e password with
  | .error _ => .panicked "Failed to hash password" conn
  | .ok password_hash =>
      let r := conn.insert username password_hash
      .ret r.1 r.2

/-- `pub async fn login(conn, username, password) -> Result<User, Error>`
(user_service.rs, lines 25–42), translated line by line: the username
lookup; on a found row,
`verify_password(&user.password_hash, password).expect("Password verification failed")`
— a structural verification failure panics; a verified password returns
`Ok(user)`; a wrong password returns `Err(Error::NotFound)` (line 37); a
lookup error is returned as-is. -/
def login (conn : Store) (username password : String) : ServiceOutcome :=
  match conn.findByUsername username with
  | .ok user =>
      match verify_password user.password_hash password with
      | .error _ => .panicked "Password verification failed" conn
      | .ok true => .ret (.ok user) conn
      | .ok false => .ret (.err .NotFound) conn
  | .err e => .ret (.err e) conn

/-! ## Concrete states used by counterexamples and witnesses -/

/-- The row persisted by a successful `register("bob", "secret")` with
salt 0 on an empty table. -/
def bobUser : User := ⟨0, "bob", bcryptHashString 0 "secret"⟩

/-- The store after `register("bob", "secret")` succeeds on an empty table
with salt 0 — the state of the spec's login examples. -/
def bobStore : Store := (register_user (Entropy.ok 0) emptyStore "bob" "secret").store

/-- The row persisted by a successful `register("alice", "pw1")` with
salt 7 on an empty table. -/
def aliceUser : User := ⟨0, "alice", bcryptHashString 7 "pw1"⟩

/-- The store after `register("alice", "pw1")` succeeds on an empty table
with salt 7 — the state of the spec's duplicate-registration example. -/
def aliceStore : Store := (register_user (Entropy.ok 7) emptyStore "alice" "pw1").store

/-- A store holding one row whose stored hash column is structurally
malformed: not a product of `hash_password`. -/
def eveStore : Store := ⟨[⟨0, "eve", "not-a-product-of-hashing"⟩], 1⟩

/-! ## Helper lemmas about the hasher -/

theorem encodeSaltChars_length (salt : Nat) : (encodeSaltChars salt).length = 22 := by
  simp [encodeSaltChars]

theorem parseBcryptHash_bcryptHashString (salt : Nat) (p : String) :
    parseBcryptHash (bcryptHashString salt p) =
      some (encodeSaltChars salt, bcryptDigest (encodeSaltChars salt) p) := by
  have hpre : bcryptPrefix.isPrefixOf
      (bcryptPrefix ++ (encodeSaltChars salt ++ bcryptDigest (encodeSaltChars salt) p))
        = true := by
    rw [List.isPrefixOf_iff_prefix]
    exact List.prefix_append _ _
  have hdrop : (bcryptPrefix ++
      (encodeSaltChars salt ++ bcryptDigest (encodeSaltChars salt) p)).drop
        bcryptPrefix.length
      = encodeSaltChars salt ++ bcryptDigest (encodeSaltChars salt) p :=
    List.drop_left _ _
  have hlen : 22 ≤ (encodeSaltChars salt ++
      bcryptDigest (encodeSaltChars salt) p).length := by
    simp [List.length_append, encodeSaltChars_length]
  have htake : (encodeSaltChars salt ++
      bcryptDigest (encodeSaltChars salt) p).take 22 = encodeSaltChars salt := by
    rw [← encodeSaltChars_length salt]
    exact List.take_left _ _
  have hdrop22 : (encodeSaltChars salt ++
      bcryptDigest (encodeSaltChars salt) p).drop 22
      = bcryptDigest (encodeSaltChars salt) p := by
    rw [← encodeSaltChars_length salt]
    exact List.drop_left _ _
  simp only [parseBcryptHash, bcryptHashString, hpre, hdrop, if_true, hlen, htake, hdrop22,
    if_pos]

theorem verify_bcryptHashString_self (salt : Nat) (p : String) :
    verify_password (bcryptHashString salt p) p = .ok true := by
  simp [verify_password, parseBcryptHash_bcryptHashString]

theorem verify_bcryptHashString_of_ne (salt : Nat) (p₁ p₂ : String) (h : p₁ ≠ p₂) :
    verify_password (bcryptHashString salt p₁) p₂ = .ok false := by
  have hdata : p₁.data ≠ p₂.data := fun hd => h (congrArg String.mk hd)
  simp [verify_password, parseBcryptHash_bcryptHashString, bcryptDigest, hdata]

theorem find?_append_of_none {α : Type} (p : α → Bool) (l₁ l₂ : List α)
    (h : l₁.find? p = none) : (l₁ ++ l₂).find? p = l₂.find? p := by
  induction l₁ with
  | nil => rfl
  | cons a t ih =>
      rw [List.find?_eq_none] at h
      have ha : ¬ p a = true := h a (by simp)
      rw [List.cons_append, List.find?_cons_of_neg _ ha]
      exact ih (List.find?_eq_none.mpr fun x hx => h x (by simp [hx]))

/-! ## Helper lemmas about the store and the service -/

theorem register_ok_inversion (salt : Nat) (s : Store) (u p : String)
    (user : User) (s' : Store)
    (h : register_user (Entropy.ok salt) s u p = .ret (.ok user) s') :
    s.rows.any (fun r => r.username == u) = false ∧
    user = ⟨s.nextId, u, bcryptHashString salt p⟩ ∧
    s' = ⟨s.rows ++ [user], s.nextId + 1⟩ := by
  simp only [register_user, hash_password, Store.insert] at h
  by_cases hc : s.rows.any (fun r => r.username == u) = true
  · rw [if_pos hc] at h
    simp at h
  · rw [if_neg hc] at h
    simp only [ServiceOutcome.ret.injEq, RustResult.ok.injEq] at h
    obtain ⟨hu, hs⟩ := h
    have hc' : s.rows.any (fun r => r.username == u) = false := by simpa using hc
    refine ⟨hc', hu.symm, ?_⟩
    rw [← hs, ← hu]

theorem findByUsername_after_insert (s : Store) (u : String) (user : User)
    (hany : s.rows.any (fun r => r.username == u) = false)
    (huser : user.username = u) :
    Store.findByUsername ⟨s.rows ++ [user], s.nextId + 1⟩ u = .ok user := by
  have hnone : s.rows.find? (fun r => r.username == u) = none := by
    rw [List.find?_eq_none]
    intro r hr
    simpa using List.any_eq_false.mp hany r hr
  unfold Store.findByUsername
  rw [find?_append_of_none _ _ _ hnone]
  simp [huser]

/-! ## The claims -/

/-- C5: for every password `p`, verifying `p` against a hash freshly
produced from `p` succeeds: `verify(hash(p), p) == true` — whatever salt
the entropy source drew. -/
theorem C5_round_trip (e : Entropy) (p stored : String)
    (h : hash_password e p = .ok stored) :
    verify_password stored p = .ok true := by
  cases e with
  | unavailable => simp [hash_password] at h
  | ok salt =>
      simp only [hash_password, Except.ok.injEq] at h
      rw [← h]
      exact verify_bcryptHashString_self salt p

/-- C5 witness: `hash("secret")` with salt 5 verifies against `"secret"`. -/
theorem C5_round_trip_witness :
    hash_password (Entropy.ok 5) "secret" = .ok (bcryptHashString 5 "secret") ∧
    verify_password (bcryptHashString 5 "secret") "secret" = .ok true :=
  ⟨rfl, C5_round_trip (Entropy.ok 5) "secret" (bcryptHashString 5 "secret") rfl⟩

/-- C7: for every pair of distinct passwords `p₁ ≠ p₂`,
`verify(hash(p₁), p₂)` is the boolean result `false` — an `Ok` value, not
an error. -/
theorem C7_negative_round_trip (e : Entropy) (p₁ p₂ stored : String)
    (hne : p₁ ≠ p₂) (h : hash_password e p₁ = .ok stored) :
    verify_password stored p₂ = .ok false := by
  cases e with
  | unavailable => simp [hash_password] at h
  | ok salt =>
      simp only [hash_password, Except.ok.injEq] at h
      rw [← h]
      exact verify_bcryptHashString_of_ne salt p₁ p₂ hne

/-- C7 witness: `hash("secret")` with salt 5 does not verify against
`"wrong"`, and the mismatch is the result `false`, not an error. -/
theorem C7_negative_round_trip_witness :
    "secret" ≠ "wrong" ∧
    hash_password (Entropy.ok 5) "secret" = .ok (bcryptHashString 5 "secret") ∧
    verify_password (bcryptHashString 5 "secret") "wrong" = .ok false :=
  ⟨by decide, rfl,
    C7_negative_round_trip (Entropy.ok 5) "secret" "wrong"
      (bcryptHashString 5 "secret") (by decide) rfl⟩

/-- C9: the stored hash is never the plaintext — whenever `hash` succeeds,
its output string differs from the password that was hashed. -/
theorem C9_hash_ne_plaintext (e : Entropy) (p stored : String)
    (h : hash_password e p = .ok stored) : stored ≠ p := by
  cases e with
  | unavailable => simp [hash_password] at h
  | ok salt =>
      simp only [hash_password, Except.ok.injEq] at h
      intro hep
      have hdata : stored.data = p.data := by rw [hep]
      rw [← h] at hdata
      have hlen : (bcryptHashString salt p).data.length = p.data.length := by
        rw [hdata]
      simp [bcryptHashString, bcryptDigest, List.length_append, encodeSaltChars_length,
        bcryptPrefix] at hlen
      omega

/-- C9 witness: the hash of `"secret"` with salt 5 is not `"secret"`. -/
theorem C9_hash_ne_plaintext_witness :
    hash_password (Entropy.ok 5) "secret" = .ok (bcryptHashString 5 "secret") ∧
    bcryptHashString 5 "secret" ≠ "secret" :=
  ⟨rfl, C9_hash_ne_plaintext (Entropy.ok 5) "secret" (bcryptHashString 5 "secret") rfl⟩

/-- C8: for every username with no matching row in the store and every
password, `login` returns `Err(Error::NotFound)` propagated as-is from the
lookup, and the store is unchanged. -/
theorem C8_login_unknown_user (s : Store) (u p : String)
    (h : ∀ r ∈ s.rows, r.username ≠ u) :
    login s u p = .ret (.err .NotFound) s := by
  have hf : s.rows.find? (fun r => r.username == u) = none := by
    rw [List.find?_eq_none]
    intro r hr
    simpa using h r hr
  simp [login, Store.findByUsername, hf]

/-- C8 witness: `login("ghost", "anything")` on the empty store returns
`Err(Error::NotFound)`. -/
theorem C8_login_unknown_user_witness :
    (∀ r ∈ emptyStore.rows, r.username ≠ "ghost") ∧
    login emptyStore "ghost" "anything" = .ret (.err .NotFound) emptyStore :=
  ⟨by intro r hr; simp [emptyStore] at hr,
    C8_login_unknown_user emptyStore "ghost" "anything"
      (by intro r hr; simp [emptyStore] at hr)⟩

/-- C10: `login` never mutates the credential store — on every outcome
(success, wrong password, unknown user, store error, or panic) the store it
leaves behind is the store it was given. -/
theorem C10_login_leaves_store_unchanged (s : Store) (u p : String) :
    (login s u p).store = s := by
  unfold login
  split
  · split <;> rfl
  · rfl

/-- C2 counterexample: with the entropy source unavailable, the hashing
step of `register_user` fails and the call panics
(`.expect("Failed to hash password")`) instead of returning a
`HashingFailure` error value — refuting the claim that `register` does not
crash on a hashing failure. -/
theorem C2_counterexample :
    register_user Entropy.unavailable emptyStore "alice" "pw" =
      .panicked "Failed to hash password" emptyStore := rfl

/-- C2 amended: when the password-hash computation fails, `register_user`
panics with `"Failed to hash password"` (no error value is returned); the
panic happens before any store access, so the store at the unwind is
exactly the store that was passed in — in particular no row was inserted
for the username. -/
theorem C2_register_panics_on_hash_failure (s : Store) (u p : String) :
    register_user Entropy.unavailable s u p = .panicked "Failed to hash password" s := rfl

/-- C3 counterexample: on a stored row whose hash column is structurally
malformed, `login` panics (`.expect("Password verification failed")`)
instead of returning a `HashingFailure` error value — refuting the claim
that `login` does not crash on a malformed stored hash. -/
theorem C3_counterexample :
    login eveStore "eve" "pw" = .panicked "Password verification failed" eveStore := by
  decide

/-- C3 amended: when the looked-up row's `password_hash` is structurally
malformed (it does not parse as a product of `hash`), `login` panics with
`"Password verification failed"` rather than returning `HashingFailure`;
the store is unchanged at the unwind. -/
theorem C3_login_panics_on_malformed_hash (s : Store) (u p : String) (user : User)
    (hfind : s.findByUsername u = .ok user)
    (hmal : parseBcryptHash user.password_hash = none) :
    login s u p = .panicked "Password verification failed" s := by
  simp [login, hfind, verify_password, hmal]

/-- C3 amended witness: the malformed row of `eveStore` makes `login`
panic. -/
theorem C3_login_panics_on_malformed_hash_witness :
    eveStore.findByUsername "eve" = .ok ⟨0, "eve", "not-a-product-of-hashing"⟩ ∧
    parseBcryptHash "not-a-product-of-hashing" = none ∧
    login eveStore "eve" "pw" = .panicked "Password verification failed" eveStore :=
  ⟨by decide, by decide,
    C3_login_panics_on_malformed_hash eveStore "eve" "pw"
      ⟨0, "eve", "not-a-product-of-hashing"⟩ (by decide) (by decide)⟩

/-- C1 counterexample: after `register("bob", "secret")`, a login with the
wrong password returns `Err(Error::NotFound)` (user_service.rs line 37) —
exactly the same error as a login for an unknown username — refuting the
claim that the wrong-password outcome is a dedicated `AuthenticationFailure`
distinct from `NotFoundError`. -/
theorem C1_counterexample :
    login bobStore "bob" "wrong" = .ret (.err .NotFound) bobStore ∧
    login bobStore "ghost" "anything" = .ret (.err .NotFound) bobStore :=
  ⟨by decide, by decide⟩

/-- C1 amended: for every stored user and every candidate password that
does not verify against the stored hash, `login` returns
`Err(Error::NotFound)` — the same `NotFound` error used for an unknown
username; the code has no dedicated wrong-password outcome. -/
theorem C1_wrong_password_returns_not_found (s : Store) (u p : String) (user : User)
    (hfind : s.findByUsername u = .ok user)
    (hverify : verify_password user.password_hash p = .ok false) :
    login s u p = .ret (.err .NotFound) s := by
  simp [login, hfind, hverify]

/-- C1 amended witness: `login("bob", "wrong")` on the store holding bob's
registration returns `Err(Error::NotFound)`. -/
theorem C1_wrong_password_returns_not_found_witness :
    bobStore.findByUsername "bob" = .ok bobUser ∧
    verify_password bobUser.password_hash "wrong" = .ok false ∧
    login bobStore "bob" "wrong" = .ret (.err .NotFound) bobStore :=
  ⟨by decide, rfl,
    C1_wrong_password_returns_not_found bobStore "bob" "wrong" bobUser
      (by decide) rfl⟩

/-- C6: if `register(u, p)` succeeded, then `login(u, p)` succeeds,
returning the registered user, whose username is `u`; the store is
unchanged by the login. -/
theorem C6_login_after_register (salt : Nat) (s s' : Store) (u p : String) (user : User)
    (h : register_user (Entropy.ok salt) s u p = .ret (.ok user) s') :
    login s' u p = .ret (.ok user) s' ∧ user.username = u := by
  obtain ⟨hany, huser, hs⟩ := register_ok_inversion salt s u p user s' h
  subst hs
  have hfind := findByUsername_after_insert s u user hany (by rw [huser])
  have hverify : verify_password user.password_hash p = .ok true := by
    rw [huser]
    exact verify_bcryptHashString_self salt p
  constructor
  · simp [login, hfind, hverify]
  · rw [huser]

/-- C6 witness: after `register("bob", "secret")` on the empty store,
`login("bob", "secret")` returns bob's user row. -/
theorem C6_login_after_register_witness :
    register_user (Entropy.ok 0) emptyStore "bob" "secret" = .ret (.ok bobUser) bobStore ∧
    (login bobStore "bob" "secret" = .ret (.ok bobUser) bobStore ∧
      bobUser.username = "bob") :=
  ⟨rfl, C6_login_after_register 0 emptyStore bobStore "bob" "secret" bobUser rfl⟩

/-- C4: if `register(u, p₁)` succeeded, a subsequent `register(u, p₂)`
returns the store's uniqueness-violation database error — a variant
distinct by construction from `NotFound` and from every other database
error kind — propagated verbatim with the store unchanged, and the stored
row for `u` is still the first registration: its hash verifies `p₁`. -/
theorem C4_duplicate_register (salt₁ salt₂ : Nat) (s s₁ : Store) (u p₁ p₂ : String)
    (user : User)
    (h : register_user (Entropy.ok salt₁) s u p₁ = .ret (.ok user) s₁) :
    register_user (Entropy.ok salt₂) s₁ u p₂ =
        .ret (.err (.DatabaseError .uniqueViolation)) s₁ ∧
    s₁.findByUsername u = .ok user ∧
    verify_password user.password_hash p₁ = .ok true := by
  obtain ⟨hany, huser, hs⟩ := register_ok_inversion salt₁ s u p₁ user s₁ h
  subst hs
  have hany₂ : (s.rows ++ [user]).any (fun r => r.username == u) = true := by
    simp [List.any_append, huser]
  refine ⟨?_, ?_, ?_⟩
  · simp [register_user, hash_password, Store.insert, hany₂]
  · exact findByUsername_after_insert s u user hany (by rw [huser])
  · rw [huser]
    exact verify_bcryptHashString_self salt₁ p₁

/-- C4 witness: registering `("alice", "pw1")` then `("alice", "pw2")` —
the second call returns the uniqueness-violation error, the store still
holds alice's first row, and that row's hash verifies `"pw1"`. -/
theorem C4_duplicate_register_witness :
    register_user (Entropy.ok 7) emptyStore "alice" "pw1" =
        .ret (.ok aliceUser) aliceStore ∧
    (register_user (Entropy.ok 9) aliceStore "alice" "pw2" =
        .ret (.err (.DatabaseError .uniqueViolation)) aliceStore ∧
    aliceStore.findByUsername "alice" = .ok aliceUser ∧
    verify_password aliceUser.password_hash "pw1" = .ok true) :=
  ⟨rfl,
    C4_duplicate_register 7 9 emptyStore aliceStore "alice" "pw1" "pw2" aliceUser rfl⟩

end UserService
